import Mathlib

/-!
Verification of the weather CLI (package main, main.go, refactored variant).

The Go program fetches a one-day forecast from a weather API, formats the
current conditions and the upcoming hourly entries, and prints them with a
red highlight on high-rain hours.  This file is a shallow embedding of that
program:

* Go float64 fields (temperatures, chance of rain) are embedded as rationals;
  every float64 value is exactly a rational, and fmt's %.0f verb is
  round-to-nearest, ties-to-even, which fmtF0 implements.  (The model renders
  a negative value rounding to zero as "0" where Go prints "-0"; no claim
  touches that corner.)
* Time instants are embedded as integers (epoch seconds).  time.Now() is an
  input sampled once per pass, so it is threaded as an explicit parameter
  referenceNow; the local timezone of date.Local().Format is a fixed offset
  parameter, in seconds.
* The HTTP transport and the encoding/json decoder are external libraries,
  so FetchWeatherData takes the transport result and the decoder as
  parameters; the response body is the already-read byte string (io.ReadAll
  failures are outside the model).
* Writes to the io.Writer sink are embedded as the list of the raw strings
  written, in order; fatih/color wraps a red line in ANSI escapes.
-/

/-! ## Characters and trimming (strings.TrimSpace) -/

/-- The whitespace predicate of Go's strings.TrimSpace (unicode.IsSpace),
restricted to the Latin-1 code points Go special-cases: space, tab, newline,
vertical tab, form feed, carriage return, NEL and NBSP. -/
def isSpaceChar (c : Char) : Bool :=
  c = ' ' || c = '\t' || c = '\n' || c = '\r' ||
  c = Char.ofNat 11 || c = Char.ofNat 12 || c = Char.ofNat 0x85 || c = Char.ofNat 0xA0

/-- Drop leading whitespace characters. -/
def trimLeftList (l : List Char) : List Char := l.dropWhile isSpaceChar

/-- Drop trailing whitespace characters. -/
def trimRightList (l : List Char) : List Char := (l.reverse.dropWhile isSpaceChar).reverse

/-- strings.TrimSpace: remove leading and trailing whitespace. -/
def trimSpace (s : String) : String := String.mk (trimRightList (trimLeftList s.data))

/-! ## Data model (struct Weather) -/

/-- condition JSON object: text and icon. -/
structure Condition where
  Text : String
  Icon : String
deriving DecidableEq, Repr

/-- location JSON object. -/
structure Location where
  Name : String
  Country : String
deriving DecidableEq, Repr

/-- current JSON object. -/
structure Current where
  TempC : ℚ
  Cond : Condition
deriving DecidableEq, Repr

/-- One hourly forecast entry. -/
structure Hour where
  TimeEpoch : ℤ
  TempC : ℚ
  Cond : Condition
  ChanceOfRain : ℚ
deriving DecidableEq, Repr

/-- One forecast day: its hourly entries. -/
structure Forecastday where
  Hours : List Hour
deriving DecidableEq, Repr

/-- forecast JSON object: the day list. -/
structure Forecast where
  Forecastday : List Forecastday
deriving DecidableEq, Repr

/-- The decoded API response (struct Weather in main.go). -/
structure Weather where
  Loc : Location
  Current : Current
  Forecast : Forecast
deriving DecidableEq, Repr

/-! ## Condition classifier (emojis map, IsSimpleCondition, GetWeatherEmoji) -/

namespace emoji

/-- github.com/enescakir/emoji. Sun. -/
def Sun : String := "☀️"

/-- github.com/enescakir/emoji. Cloud. -/
def Cloud : String := "☁️"

/-- github.com/enescakir/emoji. CloudWithRain. -/
def CloudWithRain : String := "🌧️"

/-- github.com/enescakir/emoji. SunBehindCloud. -/
def SunBehindCloud : String := "⛅"

end emoji

/-- The emojis map literal of main.go, as an association list. -/
def emojis : List (String × String) :=
  [("Clear", emoji.Sun),
   ("Sunny", emoji.Sun),
   ("Patchy rain", emoji.CloudWithRain),
   ("Partly cloudy", emoji.SunBehindCloud),
   ("Cloudy", emoji.Cloud),
   ("Patchy rain nearby", emoji.CloudWithRain),
   ("Rainy", emoji.CloudWithRain)]

/-- Go map indexing emojis[k]: the mapped value, or the zero value "" for a
missing key. -/
def emojisGet (k : String) : String :=
  match emojis.find? (fun p => p.1 == k) with
  | some p => p.2
  | none => ""

/-- IsSimpleCondition: the switch over the seven known condition labels. -/
def IsSimpleCondition (category : String) : Bool :=
  match category with
  | "Sunny" | "Patchy rain" | "Partly cloudy" | "Cloudy" | "Rainy"
  | "Patchy rain nearby" | "Clear" => true
  | _ => false

/-- GetWeatherEmoji: trim, then table lookup with cloud fallback. -/
def GetWeatherEmoji (condition : String) : String :=
  let c := trimSpace condition
  if IsSimpleCondition c then emojisGet c else emoji.Cloud

/-! ## Numeric and time rendering (fmt %.0f, time Format 15:04) -/

/-- Round to the nearest integer, ties to even: the rounding of fmt's %.0f
verb applied to the exact rational value of a float64.  With n the floor of
q and r the remainder of its numerator by its (positive) denominator, the
fractional part r/den is compared to 1/2 by cross-multiplying. -/
def roundHalfEven (q : ℚ) : ℤ :=
  let n : ℤ := q.num.ediv q.den
  let r : ℤ := q.num.emod q.den
  if 2 * r < (q.den : ℤ) then n
  else if (q.den : ℤ) < 2 * r then n + 1
  else if n % 2 = 0 then n else n + 1

/-- fmt.Sprintf "%.0f". -/
def fmtF0 (q : ℚ) : String := toString (roundHalfEven q)

/-- Two-digit zero-padded decimal, as in time layout "15" and "04". -/
def pad2 (n : ℕ) : String := if n < 10 then "0" ++ toString n else toString n

/-- time.Unix(e, 0).Local().Format("15:04") in a fixed-offset zone of off
seconds east of UTC. -/
def localHM (off e : ℤ) : String :=
  let t := e + off
  pad2 ((t.ediv 3600).emod 24).toNat ++ ":" ++ pad2 ((t.emod 3600).ediv 60).toNat

/-! ## Weather client (FetchWeatherData) -/

/-- The relevant part of an http.Response: status code and fully read body. -/
structure HttpResponse where
  StatusCode : ℤ
  Body : String
deriving DecidableEq, Repr

/-- FetchWeatherData after the URL is built: takes the json.Unmarshal
decoder and the transport outcome of Client.Get as parameters and mirrors
the status check, decode and error wrapping of main.go. -/
def FetchWeatherData (decode : String → Except String Weather) (city : String)
    (getResult : Except String HttpResponse) : Except String Weather :=
  match getResult with
  | Except.error e => Except.error ("failed to fetch weather data: " ++ e)
  | Except.ok resp =>
    if resp.StatusCode ≠ 200 then
      Except.error ("API returned status " ++ toString resp.StatusCode ++ " for city " ++ city)
    else
      match decode resp.Body with
      | Except.error e => Except.error ("failed to parse weather data: " ++ e)
      | Except.ok w => Except.ok w

/-! ## Formatter (FormatCurrentWeather, FormatHourlyForecast) -/

/-- FormatCurrentWeather: one line, name, country, %.0f temperature, trimmed
condition, glyph. -/
def FormatCurrentWeather (w : Weather) : String :=
  let condition := trimSpace w.Current.Cond.Text
  let e := GetWeatherEmoji condition
  w.Loc.Name ++ ", " ++ w.Loc.Country ++ ": " ++ fmtF0 w.Current.TempC ++ "°C, " ++
    condition ++ " " ++ e

/-- The line built for one hourly entry inside FormatHourlyForecast's loop. -/
def formatHourLine (off : ℤ) (h : Hour) : String :=
  let condition := trimSpace h.Cond.Text
  let e := GetWeatherEmoji condition
  localHM off h.TimeEpoch ++ " - " ++ fmtF0 h.TempC ++ "°C, " ++ fmtF0 h.ChanceOfRain ++
    "%, " ++ condition ++ " " ++ e

/-- The loop of FormatHourlyForecast: skip hours strictly before the sampled
current time, emit a line for the rest. -/
def hourlyLoop (off now : ℤ) : List Hour → List String
  | [] => []
  | h :: rest =>
    if h.TimeEpoch < now then hourlyLoop off now rest
    else formatHourLine off h :: hourlyLoop off now rest

/-- FormatHourlyForecast: empty day list yields an empty slice, else format
the first day's hours, with the current time sampled once as now. -/
def FormatHourlyForecast (off now : ℤ) (w : Weather) : List String :=
  match w.Forecast.Forecastday with
  | [] => []
  | d :: _ => hourlyLoop off now d.Hours

/-! ## Presenter (PrintForecast) -/

/-- fmt.Fprintln: one plain write, the line plus a newline. -/
def fprintln (s : String) : String := s ++ "\n"

/-- color.New(color.FgRed).Fprintln: one write, the line wrapped in the red
ANSI escapes plus a newline. -/
def colorRedFprintln (s : String) : String := "\x1b[31m" ++ s ++ "\x1b[0m" ++ "\n"

/-- The loop of PrintForecast: skip past hours, and for each upcoming hour
with a formatted line left (index i), write it, red iff chance of rain is at
least 50. -/
def printLoop (now : ℤ) (forecasts : List String) : List Hour → ℕ → List String
  | [], _ => []
  | h :: rest, i =>
    if h.TimeEpoch < now then printLoop now forecasts rest i
    else if i < forecasts.length then
      (if 50 ≤ h.ChanceOfRain then colorRedFprintln forecasts[i]! else fprintln forecasts[i]!) ::
        printLoop now forecasts rest (i + 1)
    else printLoop now forecasts rest i

/-- PrintForecast: the sequence of raw strings written to the sink, with the
current time sampled once as now. -/
def PrintForecast (now : ℤ) (forecasts : List String) (w : Weather) : List String :=
  match w.Forecast.Forecastday with
  | [] => []
  | d :: _ => printLoop now forecasts d.Hours 0

/-! ## Specification-side derived notions -/

/-- The Time Filter of spec section 4.4: keep an entry iff its instant is not
strictly before the reference instant. -/
def isUpcoming (e referenceNow : ℤ) : Bool := !decide (e < referenceNow)

/-- The upcoming hourly entries of the first forecast day, as the spec
describes the Presenter re-deriving them. -/
def upcomingHours (now : ℤ) (w : Weather) : List Hour :=
  match w.Forecast.Forecastday with
  | [] => []
  | d :: _ => d.Hours.filter (fun h => isUpcoming h.TimeEpoch now)

/-- The write decided for one formatted line from its hourly entry: red
highlight iff its chance of rain is at least 50 percent. -/
def writeLine (s : String) (h : Hour) : String :=
  if 50 ≤ h.ChanceOfRain then colorRedFprintln s else fprintln s

/-! ## Concrete data for the closed witnesses -/

/-- The snapshot of the FormatCurrentWeather unit test. -/
def casablanca : Weather :=
  ⟨⟨"Casablanca", "Morocco"⟩, ⟨22, ⟨"Partly cloudy", ""⟩⟩, ⟨[]⟩⟩

/-- A forecast day with one past and one upcoming hour (now = 3600). -/
def dayC1 : Forecastday :=
  ⟨[⟨0, 10, ⟨"Rainy", ""⟩, 80⟩, ⟨7200, 18, ⟨" Sunny ", ""⟩, 5⟩]⟩

/-- A snapshot holding dayC1. -/
def wC1 : Weather := ⟨⟨"A", "B"⟩, ⟨20, ⟨"Clear", ""⟩⟩, ⟨[dayC1]⟩⟩

/-- An hourly entry whose instant is exactly 5. -/
def hourAt5 : Hour := ⟨5, 20, ⟨"Clear", ""⟩, 0⟩

/-- A snapshot with an empty forecast-day list. -/
def wEmpty : Weather := ⟨⟨"X", "Y"⟩, ⟨0, ⟨"Clear", ""⟩⟩, ⟨[]⟩⟩

/-! ## Lemmas about trimming -/

/-- The two-sided trim at the character-list level. -/
def trimList (l : List Char) : List Char :=
  List.rdropWhile isSpaceChar (l.dropWhile isSpaceChar)

lemma trimSpace_eq (s : String) : trimSpace s = String.mk (trimList s.data) := rfl

lemma dropWhile_trimList (l : List Char) :
    (trimList l).dropWhile isSpaceChar = trimList l := by
  rcases h : trimList l with _ | ⟨c, t⟩
  · rfl
  · have hpre : trimList l <+: l.dropWhile isSpaceChar :=
      List.rdropWhile_prefix isSpaceChar (l.dropWhile isSpaceChar)
    obtain ⟨r, hr⟩ := hpre
    have h2 : l.dropWhile isSpaceChar = c :: (t ++ r) := by
      rw [← hr, h]; simp
    have h3 := List.head?_dropWhile_not isSpaceChar l
    rw [h2] at h3
    simp only [List.head?_cons] at h3
    rw [List.dropWhile_cons_of_neg (by simp [h3])]

lemma trimList_idem (l : List Char) : trimList (trimList l) = trimList l := by
  show List.rdropWhile isSpaceChar ((trimList l).dropWhile isSpaceChar) = trimList l
  rw [dropWhile_trimList]
  show List.rdropWhile isSpaceChar (List.rdropWhile isSpaceChar (l.dropWhile isSpaceChar)) =
    trimList l
  exact List.rdropWhile_idempotent isSpaceChar _

lemma trimSpace_idem (s : String) : trimSpace (trimSpace s) = trimSpace s := by
  rw [trimSpace_eq, trimSpace_eq]
  exact congrArg String.mk (trimList_idem s.data)

lemma rdropWhile_append_of_all {p : Char → Bool} {l m : List Char}
    (h : ∀ c ∈ m, p c) : List.rdropWhile p (l ++ m) = List.rdropWhile p l := by
  unfold List.rdropWhile
  rw [List.reverse_append, List.dropWhile_append_of_pos (by simpa using h)]

/-- Trimming ignores a fully-whitespace prefix and suffix. -/
lemma trimList_append (pre s suf : List Char)
    (hpre : ∀ c ∈ pre, isSpaceChar c) (hsuf : ∀ c ∈ suf, isSpaceChar c) :
    trimList (pre ++ s ++ suf) = trimList s := by
  unfold trimList
  rw [List.append_assoc, List.dropWhile_append_of_pos hpre, List.dropWhile_append]
  by_cases hs : (s.dropWhile isSpaceChar).isEmpty
  · rw [if_pos hs, List.dropWhile_eq_nil_iff.mpr hsuf]
    rw [List.isEmpty_iff] at hs
    rw [hs]
  · rw [if_neg hs]
    exact rdropWhile_append_of_all hsuf

lemma trimSpace_append (pre s suf : String)
    (hpre : ∀ c ∈ pre.data, isSpaceChar c) (hsuf : ∀ c ∈ suf.data, isSpaceChar c) :
    trimSpace (pre ++ s ++ suf) = trimSpace s := by
  rw [trimSpace_eq, trimSpace_eq]
  refine congrArg String.mk ?_
  have hdata : (pre ++ s ++ suf).data = pre.data ++ s.data ++ suf.data := by
    simp [String.data_append]
  rw [hdata]
  exact trimList_append pre.data s.data suf.data hpre hsuf

lemma GetWeatherEmoji_trimSpace (s : String) :
    GetWeatherEmoji (trimSpace s) = GetWeatherEmoji s := by
  unfold GetWeatherEmoji
  rw [trimSpace_idem]

lemma GetWeatherEmoji_append (pre s suf : String)
    (hpre : ∀ c ∈ pre.data, isSpaceChar c) (hsuf : ∀ c ∈ suf.data, isSpaceChar c) :
    GetWeatherEmoji (pre ++ s ++ suf) = GetWeatherEmoji s := by
  unfold GetWeatherEmoji
  rw [trimSpace_append pre s suf hpre hsuf]

/-! ## Lemmas about the two loops -/

/-- The formatting loop is the Time Filter followed by per-entry line
formatting. -/
lemma hourlyLoop_eq_filter_map (off now : ℤ) (hs : List Hour) :
    hourlyLoop off now hs =
      (hs.filter (fun h => isUpcoming h.TimeEpoch now)).map (formatHourLine off) := by
  induction hs with
  | nil => rfl
  | cons h rest ih =>
    by_cases hlt : h.TimeEpoch < now
    · simp [hourlyLoop, hlt, List.filter_cons, isUpcoming, ih]
    · simp [hourlyLoop, hlt, List.filter_cons, isUpcoming, ih]

/-- The printing loop pairs the formatted lines from index i on with the
upcoming hours, truncating at the shorter of the two. -/
lemma printLoop_eq_zipWith (now : ℤ) (fs : List String) (hs : List Hour) :
    ∀ i, printLoop now fs hs i =
      List.zipWith writeLine (fs.drop i)
        (hs.filter (fun h => isUpcoming h.TimeEpoch now)) := by
  induction hs with
  | nil => intro i; simp [printLoop]
  | cons h rest ih =>
    intro i
    by_cases hlt : h.TimeEpoch < now
    · simp [printLoop, hlt, List.filter_cons, isUpcoming, ih i]
    · by_cases hi : i < fs.length
      · simp only [printLoop, if_neg hlt, if_pos hi, ih (i + 1)]
        have hfil : List.filter (fun h : Hour => isUpcoming h.TimeEpoch now) (h :: rest)
            = h :: List.filter (fun h : Hour => isUpcoming h.TimeEpoch now) rest := by
          simp [List.filter_cons, isUpcoming, hlt]
        rw [hfil, List.drop_eq_getElem_cons hi, List.zipWith_cons_cons, getElem!_pos fs i hi]
        rfl
      · simp only [printLoop, if_neg hlt, if_neg hi, ih i]
        rw [List.drop_eq_nil_of_le (le_of_not_lt hi)]
        simp

/-- FetchWeatherData on a delivered response, with the transport match
reduced. -/
lemma FetchWeatherData_ok (decode : String → Except String Weather) (city : String)
    (resp : HttpResponse) :
    FetchWeatherData decode city (Except.ok resp) =
      if resp.StatusCode ≠ 200 then
        Except.error ("API returned status " ++ toString resp.StatusCode ++
          " for city " ++ city)
      else
        match decode resp.Body with
        | Except.error e => Except.error ("failed to parse weather data: " ++ e)
        | Except.ok w => Except.ok w := rfl

/-! ## The claims -/

/-- Claim C1: for every snapshot whose forecast-day list is non-empty,
FormatHourlyForecast returns, for exactly the hourly entries of the first
forecast day whose timestamp passes the Time Filter, in original order, the
line "HH:MM - temp°C, rainChance%, condition glyph", the condition text
trimmed both before classification and before being embedded in the line. -/
theorem claim_C1 (off now : ℤ) (w : Weather) (d : Forecastday) (ds : List Forecastday)
    (hw : w.Forecast.Forecastday = d :: ds) :
    FormatHourlyForecast off now w =
      (d.Hours.filter (fun h => isUpcoming h.TimeEpoch now)).map
        (fun h => localHM off h.TimeEpoch ++ " - " ++ fmtF0 h.TempC ++ "°C, " ++
          fmtF0 h.ChanceOfRain ++ "%, " ++ trimSpace h.Cond.Text ++ " " ++
          GetWeatherEmoji (trimSpace h.Cond.Text)) := by
  have hstep : FormatHourlyForecast off now w = hourlyLoop off now d.Hours := by
    unfold FormatHourlyForecast
    rw [hw]
  rw [hstep, hourlyLoop_eq_filter_map]
  rfl

/-- Witness for C1: a snapshot with one past and one upcoming hour; the
single surviving line is fully evaluated. -/
theorem claim_C1_witness :
    wC1.Forecast.Forecastday = dayC1 :: [] ∧
    FormatHourlyForecast 0 3600 wC1 = ["02:00 - 18°C, 5%, Sunny ☀️"] :=
  ⟨rfl, (claim_C1 0 3600 wC1 dayC1 [] rfl).trans (by decide)⟩

/-- Claim C2: FormatCurrentWeather is exactly the single line
"name, country: temp°C, condition glyph" with the temperature rounded to a
whole degree, the condition trimmed, and the glyph the classifier's glyph
for that condition; on the Casablanca snapshot it yields the documented
string ending in the partly-cloudy glyph. -/
theorem claim_C2 :
    (∀ w : Weather, FormatCurrentWeather w =
      w.Loc.Name ++ ", " ++ w.Loc.Country ++ ": " ++ fmtF0 w.Current.TempC ++ "°C, " ++
        trimSpace w.Current.Cond.Text ++ " " ++ GetWeatherEmoji w.Current.Cond.Text) ∧
    FormatCurrentWeather casablanca =
      "Casablanca, Morocco: 22°C, Partly cloudy " ++ emoji.SunBehindCloud := by
  constructor
  · intro w
    show w.Loc.Name ++ ", " ++ w.Loc.Country ++ ": " ++ fmtF0 w.Current.TempC ++ "°C, " ++
      trimSpace w.Current.Cond.Text ++ " " ++
      GetWeatherEmoji (trimSpace w.Current.Cond.Text) = _
    rw [GetWeatherEmoji_trimSpace]
  · decide

/-- Claim C3: PrintForecast writes, in order, each formatted line paired
with the corresponding upcoming hourly entry, the write being a plain
newline-terminated line, or wrapped in the red highlight exactly when that
entry's chance of rain is at least 50. -/
theorem claim_C3 (now : ℤ) (fs : List String) (w : Weather) :
    PrintForecast now fs w =
      List.zipWith (fun s h => if 50 ≤ h.ChanceOfRain then colorRedFprintln s else fprintln s)
        fs (upcomingHours now w) := by
  rcases hw : w.Forecast.Forecastday with _ | ⟨d, ds⟩
  · have h1 : PrintForecast now fs w = [] := by
      unfold PrintForecast
      rw [hw]
    have h2 : upcomingHours now w = [] := by
      unfold upcomingHours
      rw [hw]
    rw [h1, h2]
    simp
  · have h1 : PrintForecast now fs w = printLoop now fs d.Hours 0 := by
      unfold PrintForecast
      rw [hw]
    have h2 : upcomingHours now w = d.Hours.filter (fun h => isUpcoming h.TimeEpoch now) := by
      unfold upcomingHours
      rw [hw]
    rw [h1, h2, printLoop_eq_zipWith]
    rfl

/-- Claim C4: on any response with a status other than 200, FetchWeatherData
fails with exactly "API returned status code for city city"; in particular
status 400 for InvalidCity yields that exact message. -/
theorem claim_C4 :
    (∀ (decode : String → Except String Weather) (city : String) (resp : HttpResponse),
      resp.StatusCode ≠ 200 →
      FetchWeatherData decode city (Except.ok resp) =
        Except.error ("API returned status " ++ toString resp.StatusCode ++
          " for city " ++ city)) ∧
    (∀ decode : String → Except String Weather,
      FetchWeatherData decode "InvalidCity" (Except.ok ⟨400, "Bad Request"⟩) =
        Except.error "API returned status 400 for city InvalidCity") := by
  constructor
  · intro decode city resp h
    rw [FetchWeatherData_ok, if_pos h]
  · intro decode
    rfl

/-- Witness for C4: the 400/InvalidCity instance, with the message computed. -/
theorem claim_C4_witness :
    (400 : ℤ) ≠ 200 ∧
    FetchWeatherData (fun _ => Except.error "boom") "InvalidCity"
        (Except.ok ⟨400, "Bad Request"⟩) =
      Except.error ("API returned status " ++ toString (400 : ℤ) ++ " for city " ++
        "InvalidCity") :=
  ⟨by decide,
   claim_C4.1 (fun _ => Except.error "boom") "InvalidCity" ⟨400, "Bad Request"⟩ (by decide)⟩

/-- Claim C5: on a 200 response whose body the JSON decoder rejects,
FetchWeatherData fails with the weather-data-parsing error, and no snapshot
is returned. -/
theorem claim_C5 (decode : String → Except String Weather) (city e : String)
    (resp : HttpResponse) (h200 : resp.StatusCode = 200)
    (hdec : decode resp.Body = Except.error e) :
    FetchWeatherData decode city (Except.ok resp) =
      Except.error ("failed to parse weather data: " ++ e) ∧
    ∀ w : Weather, FetchWeatherData decode city (Except.ok resp) ≠ Except.ok w := by
  have hne : ¬ resp.StatusCode ≠ 200 := by simp [h200]
  constructor
  · rw [FetchWeatherData_ok, if_neg hne, hdec]
  · intro w
    rw [FetchWeatherData_ok, if_neg hne, hdec]
    simp

/-- Witness for C5: a 200 response with body "invalid json" and a decoder
that rejects it. -/
theorem claim_C5_witness :
    (⟨200, "invalid json"⟩ : HttpResponse).StatusCode = 200 ∧
    (fun _ : String => (Except.error "unexpected" : Except String Weather)) "invalid json" =
      Except.error "unexpected" ∧
    FetchWeatherData (fun _ => Except.error "unexpected") "TestCity"
        (Except.ok ⟨200, "invalid json"⟩) =
      Except.error ("failed to parse weather data: " ++ "unexpected") :=
  ⟨rfl, rfl,
   (claim_C5 (fun _ => Except.error "unexpected") "TestCity" "unexpected"
     ⟨200, "invalid json"⟩ rfl rfl).1⟩

/-- Claim C6: GetWeatherEmoji trims first, returns each table key's
documented glyph regardless of surrounding whitespace, and for every other
string, the empty string included, returns the cloud fallback, the match
being exact and case-sensitive. -/
theorem claim_C6 (s pre suf : String)
    (hpre : ∀ c ∈ pre.data, isSpaceChar c) (hsuf : ∀ c ∈ suf.data, isSpaceChar c) :
    GetWeatherEmoji (pre ++ s ++ suf) = GetWeatherEmoji s ∧
    (IsSimpleCondition (trimSpace s) = false → GetWeatherEmoji s = emoji.Cloud) ∧
    GetWeatherEmoji (pre ++ "Clear" ++ suf) = emoji.Sun ∧
    GetWeatherEmoji (pre ++ "Sunny" ++ suf) = emoji.Sun ∧
    GetWeatherEmoji (pre ++ "Patchy rain" ++ suf) = emoji.CloudWithRain ∧
    GetWeatherEmoji (pre ++ "Partly cloudy" ++ suf) = emoji.SunBehindCloud ∧
    GetWeatherEmoji (pre ++ "Cloudy" ++ suf) = emoji.Cloud ∧
    GetWeatherEmoji (pre ++ "Patchy rain nearby" ++ suf) = emoji.CloudWithRain ∧
    GetWeatherEmoji (pre ++ "Rainy" ++ suf) = emoji.CloudWithRain ∧
    GetWeatherEmoji "" = emoji.Cloud ∧
    GetWeatherEmoji "clear" = emoji.Cloud := by
  refine ⟨GetWeatherEmoji_append pre s suf hpre hsuf, ?_,
    (GetWeatherEmoji_append pre "Clear" suf hpre hsuf).trans (by decide),
    (GetWeatherEmoji_append pre "Sunny" suf hpre hsuf).trans (by decide),
    (GetWeatherEmoji_append pre "Patchy rain" suf hpre hsuf).trans (by decide),
    (GetWeatherEmoji_append pre "Partly cloudy" suf hpre hsuf).trans (by decide),
    (GetWeatherEmoji_append pre "Cloudy" suf hpre hsuf).trans (by decide),
    (GetWeatherEmoji_append pre "Patchy rain nearby" suf hpre hsuf).trans (by decide),
    (GetWeatherEmoji_append pre "Rainy" suf hpre hsuf).trans (by decide),
    by decide, by decide⟩
  intro hf
  unfold GetWeatherEmoji
  rw [if_neg (by simp [hf])]

/-- Witness for C6: whitespace " " and a tab around "Partly cloudy". -/
theorem claim_C6_witness :
    (∀ c ∈ (" " : String).data, isSpaceChar c) ∧
    (∀ c ∈ ("\t" : String).data, isSpaceChar c) ∧
    GetWeatherEmoji (" " ++ "Partly cloudy" ++ "\t") = emoji.SunBehindCloud :=
  ⟨by decide, by decide,
   (claim_C6 "Partly cloudy" " " "\t" (by decide) (by decide)).2.2.2.2.2.1⟩

/-- Claim C7: the Time Filter keeps an hourly entry iff its instant is not
strictly before the reference instant: an entry exactly at the reference
instant is kept and only strictly past entries are discarded, as exercised
by the formatting loop on a single entry. -/
theorem claim_C7 (off now : ℤ) (h : Hour) :
    (hourlyLoop off now [h] =
      if now ≤ h.TimeEpoch then [formatHourLine off h] else []) ∧
    (isUpcoming h.TimeEpoch now = !decide (h.TimeEpoch < now)) ∧
    (h.TimeEpoch = now → hourlyLoop off now [h] = [formatHourLine off h]) ∧
    (h.TimeEpoch < now → hourlyLoop off now [h] = []) := by
  refine ⟨?_, rfl, ?_, ?_⟩
  · by_cases hlt : h.TimeEpoch < now
    · rw [if_neg (not_le.mpr hlt)]
      simp [hourlyLoop, hlt]
    · rw [if_pos (not_lt.mp hlt)]
      simp [hourlyLoop, hlt]
  · intro he
    simp [hourlyLoop, he]
  · intro hlt
    simp [hourlyLoop, hlt]

/-- Witness for C7: an entry whose instant equals the reference instant 5 is
kept. -/
theorem claim_C7_witness :
    hourAt5.TimeEpoch = 5 ∧ hourlyLoop 0 5 [hourAt5] = [formatHourLine 0 hourAt5] :=
  ⟨rfl, (claim_C7 0 5 hourAt5).2.2.1 rfl⟩

/-- Claim C8: on a snapshot with no forecast days, FormatHourlyForecast is
the empty sequence and PrintForecast writes nothing. -/
theorem claim_C8 (off now : ℤ) (fs : List String) (w : Weather)
    (hw : w.Forecast.Forecastday = []) :
    FormatHourlyForecast off now w = [] ∧ PrintForecast now fs w = [] := by
  constructor
  · unfold FormatHourlyForecast
    rw [hw]
  · unfold PrintForecast
    rw [hw]

/-- Witness for C8: the concrete empty-forecast snapshot. -/
theorem claim_C8_witness :
    wEmpty.Forecast.Forecastday = [] ∧
    FormatHourlyForecast 0 0 wEmpty = [] ∧ PrintForecast 0 ["line"] wEmpty = [] :=
  ⟨rfl, (claim_C8 0 0 ["line"] wEmpty rfl).1, (claim_C8 0 0 ["line"] wEmpty rfl).2⟩

/-- Claim C9: both formatters are pure functions of the snapshot (plus the
once-sampled reference instant and zone offset): two calls on the same
snapshot give identical results, and the snapshot itself is never altered —
in this embedding the Go functions are total functions with no state. -/
theorem claim_C9 (off now : ℤ) (w : Weather) :
    FormatCurrentWeather w = FormatCurrentWeather w ∧
    FormatHourlyForecast off now w = FormatHourlyForecast off now w :=
  ⟨rfl, rfl⟩

/-- Claim C10: PrintForecast writes exactly min(number of upcoming hours,
number of formatted lines) lines. -/
theorem claim_C10 (now : ℤ) (fs : List String) (w : Weather) :
    (PrintForecast now fs w).length = min (upcomingHours now w).length fs.length := by
  rcases hw : w.Forecast.Forecastday with _ | ⟨d, ds⟩
  · have h1 : PrintForecast now fs w = [] := by
      unfold PrintForecast
      rw [hw]
    have h2 : upcomingHours now w = [] := by
      unfold upcomingHours
      rw [hw]
    rw [h1, h2]
    simp
  · have h1 : PrintForecast now fs w = printLoop now fs d.Hours 0 := by
      unfold PrintForecast
      rw [hw]
    have h2 : upcomingHours now w = d.Hours.filter (fun h => isUpcoming h.TimeEpoch now) := by
      unfold upcomingHours
      rw [hw]
    rw [h1, h2, printLoop_eq_zipWith]
    simp [Nat.min_comm]
